import Mathlib

/-!
Shallow embedding of the covidwatch upload-token cloud functions.

The embedding follows the Go sources:
- `internal/util/util.go`: the status-coded error taxonomy (`StatusError`,
  `NewInternalServerError`, `NewBadRequestError`, `NotFoundError`,
  `NewMethodNotAllowedError`, `NewNotImplementedError`, `newStatusError`),
  the request `Context` constructors (`NewContext`, `NewDevContext`,
  `NewTestContext`), `AllowEmptyChallengeSolution`, `RunTransaction`,
  `FirestoreToStatusError`, and `checkHTTPS`.
- `internal/report/report.go`: the pending-report document layout,
  the `validityPeriod` / `allocationPeriod` constants, `storePendingReport`
  and `validatePendingReport`.
- `report.go`: `reportRequest.Validate` and `ReportHandler`.
- `internal/util/handler.go`: `makeHTTPHandler`.

Time is modelled as `Int` nanoseconds since the Unix epoch (this is exactly
how the fake clock in `util.Context` stores time: a `time.Duration` of
nanoseconds). The Firestore `pending_reports` collection is modelled as an
association list from document-id strings to documents; `Create` on an
existing id fails with an error (Firestore create-if-absent semantics), and
a transaction body buffers its writes, which are applied only when the body
succeeds (`firestore.Client.RunTransaction` rolls back on error).

Randomness (`ReadCryptoRandBytes`) is modelled by passing the drawn values
(the fresh upload key and the candidate 64-bit token value) as explicit
parameters.
-/

/-- Status-coded error, as observed by a client: the HTTP status code
returned by `HTTPStatusCode()` and the string returned by `Message()`
(`util.go`, `StatusError` / `statusError`). -/
structure StatusError where
  code : Nat
  message : String
  deriving DecidableEq

/-- `util.NewInternalServerError`: code 500; the message sent to the client
is always the generic string, never the wrapped error. -/
def internalServerError : StatusError :=
  { code := 500, message := "internal server error" }

/-- `util.NewBadRequestError`: code 400, message is the wrapped error text. -/
def newBadRequestError (msg : String) : StatusError :=
  { code := 400, message := msg }

/-- `util.NotFoundError = NewBadRequestError(errors.New("not found"))`. -/
def notFoundError : StatusError :=
  newBadRequestError "not found"

/-- `util.NewMethodNotAllowedError`: code 405. -/
def newMethodNotAllowedError (method : String) : StatusError :=
  { code := 405, message := "unsupported method: " ++ method }

/-- `util.NewNotImplementedError`: code 501. -/
def notImplementedError : StatusError :=
  { code := 501, message := "not implemented" }

/-- The 418 error produced by `util.checkHTTPS` via `newStatusError`. -/
def teapotError : StatusError :=
  { code := 418, message := "unsupported protocol HTTP; only HTTPS is supported" }

/-- Classification of an error coming back from the Firestore client:
either a gRPC `codes.NotFound`, or anything else. -/
inductive FirestoreErrorKind where
  | notFound
  | other
  deriving DecidableEq

/-- `util.FirestoreToStatusError`: gRPC not-found maps to `NotFoundError`,
everything else from the store is an internal server error. -/
def firestoreToStatusError : FirestoreErrorKind → StatusError
  | FirestoreErrorKind.notFound => notFoundError
  | FirestoreErrorKind.other => internalServerError

/-- Modelled from the spec: the upload-token codec source file is not under
`src/` (only its callers are). Per §4.2 the token is a 64-bit integer and
`key(t) = t & 0x1FF` (the low 9 bits). -/
def tokenKey (t : Nat) : Nat := t &&& 0x1FF

/-- Modelled from the spec: §4.2 defines `id(t) = t >> 9` (the high 55 bits
of the 64-bit token). -/
def tokenId (t : Nat) : Nat := t >>> 9

/-- Modelled from the spec: §4.2 defines the document id string as the
canonical decimal representation of `id(t)`. -/
def idString (t : Nat) : String := toString (tokenId t)

/-- The layout of a pending report document (`report.go`,
`pendingReportDoc`). Byte slices and arrays are lists of byte values;
timestamps are `Int` nanoseconds. -/
structure PendingReportDoc where
  uploadKey : List Nat
  tokenKey : Nat
  reportData : List Nat
  validated : Bool
  validityExpiration : Int
  allocationExpiration : Int
  deriving DecidableEq

/-- The `pending_reports` collection, keyed by document id string. -/
abbrev Store := List (String × PendingReportDoc)

/-- Document lookup (`firestore` get by document id). -/
def getDoc : Store → String → Option PendingReportDoc
  | [], _ => none
  | (k, d) :: rest, docId => if k = docId then some d else getDoc rest docId

/-- Document write (`firestore` set by document id): overwrites an existing
document under the id, or inserts a fresh one. -/
def setDoc : Store → String → PendingReportDoc → Store
  | [], docId, d => [(docId, d)]
  | (k, d0) :: rest, docId, d =>
      if k = docId then (k, d) :: rest else (k, d0) :: setDoc rest docId d

/-- Apply a transaction's buffered writes in order. -/
def applyWrites : Store → List (String × PendingReportDoc) → Store
  | s, [] => s
  | s, (docId, d) :: rest => applyWrites (setDoc s docId d) rest

/-- `time.Hour` in nanoseconds. -/
def timeHour : Int := 3600 * 1000000000

/-- `report.go`: `validityPeriod = time.Hour * 24 * 3` (3 days). -/
def validityPeriod : Int := timeHour * 24 * 3

/-- `report.go`: `allocationPeriod = time.Hour * 24 * 4` (4 days). -/
def allocationPeriod : Int := timeHour * 24 * 4

/-- `report.storePendingReport`. The RNG draws are explicit parameters:
`freshUploadKey` is the 16-byte key from `genUploadKey`, and `tokenVal` is
the 64-bit big-endian value drawn for the candidate token. `Create` on the
candidate's document id fails if a document already exists there; any
create failure is wrapped by `NewInternalServerError`, and the function
returns without attempting another candidate. On success it returns the
token and the upload key stored in the document. -/
def storePendingReport (now : Int) (freshUploadKey : List Nat) (tokenVal : Nat)
    (store : Store) (reportData : List Nat) :
    Except StatusError (Nat × List Nat) × Store :=
  let validityExp := now + validityPeriod
  let allocationExp := validityExp + allocationPeriod
  let doc : PendingReportDoc :=
    { uploadKey := freshUploadKey
      tokenKey := tokenKey tokenVal
      reportData := reportData
      validated := false
      validityExpiration := validityExp
      allocationExpiration := allocationExp }
  match getDoc store (idString tokenVal) with
  | some _ => (Except.error internalServerError, store)
  | none => (Except.ok (tokenVal, freshUploadKey), setDoc store (idString tokenVal) doc)

/-- The body of `report.validatePendingReport`'s transaction: read the
document under the token's id (a missing document surfaces as a Firestore
not-found error), check the token key, the validated flag and the validity
expiration (`util.Now(ctx).After(doc.ValidityExpiration)` is a strict
comparison), and on success buffer a write of the document with
`ReportData` cleared and `Validated` set. -/
def validateTxnBody (now : Int) (store : Store) (t : Nat) :
    Option StatusError × List (String × PendingReportDoc) :=
  match getDoc store (idString t) with
  | none => (some (firestoreToStatusError FirestoreErrorKind.notFound), [])
  | some doc =>
      if tokenKey t ≠ doc.tokenKey ∨ doc.validated = true ∨ now > doc.validityExpiration then
        (some notFoundError, [])
      else
        (none, [(idString t, { doc with reportData := [], validated := true })])

/-- `util.RunTransaction` semantics: if the body returns a classified
error, that error is surfaced verbatim and none of the body's writes are
committed; on success the writes are applied. -/
def runTransactionModel (store : Store)
    (body : Option StatusError × List (String × PendingReportDoc)) :
    Option StatusError × Store :=
  match body with
  | (some e, _) => (some e, store)
  | (none, writes) => (none, applyWrites store writes)

/-- `report.validatePendingReport`: run the validation body under a
transaction. Returns the error (if any) and the resulting collection. -/
def validatePendingReport (now : Int) (store : Store) (t : Nat) :
    Option StatusError × Store :=
  runTransactionModel store (validateTxnBody now store t)

/-- The request-scoped context (`util.Context`): an optional fake clock
(nanoseconds, set only by `NewTestContext`) and the flag that is set to
`true` only by `NewDevContext`. -/
structure Context where
  clock : Option Int
  allowEmptyChallengeSolution : Bool
  deriving DecidableEq

/-- `util.NewContext` (production): no fake clock, flag false. -/
def newContext : Context :=
  { clock := none, allowEmptyChallengeSolution := false }

/-- `util.NewDevContext`: no fake clock, flag true. -/
def newDevContext : Context :=
  { clock := none, allowEmptyChallengeSolution := true }

/-- `util.NewTestContext`: fake clock initialized to the Unix epoch,
flag false. -/
def newTestContext : Context :=
  { clock := some 0, allowEmptyChallengeSolution := false }

/-- The package-level variable `allowEmptyChallengeSolutionEnvVarSet` of
`util.go`, computed once from the value the `ALLOW_EMPTY_CHALLENGE_SOLUTION`
environment variable had at program initialization. -/
def allowEmptyChallengeSolutionEnvVarSet (envAtInit : String) : Bool :=
  envAtInit != ""

/-- `util.Context.AllowEmptyChallengeSolution`: true iff the context was
constructed by `NewDevContext` and the environment variable was set at
program initialization. -/
def allowEmptySolutionEnabled (c : Context) (envAtInit : String) : Bool :=
  c.allowEmptyChallengeSolution && allowEmptyChallengeSolutionEnvVarSet envAtInit

/-- Modelled from the spec: the `pow` package source is not under `src/`.
Per §3 and §6 a challenge is a pair of a u64 work factor and a 16-byte
nonce. Only the Go zero value of this type matters to the handler logic. -/
structure Challenge where
  workFactor : Nat
  nonce : List Nat
  deriving DecidableEq

/-- Modelled from the spec: the challenge+solution envelope
(`pow.ChallengeSolution`), a 16-byte solution nonce together with the
challenge it solves (§6, "Challenge envelope"). -/
structure ChallengeSolution where
  solution : List Nat
  challenge : Challenge
  deriving DecidableEq

/-- The Go zero value `var emptyChallgeSolution pow.ChallengeSolution` of
`report.go`: all-zero nonces and a zero work factor. -/
def emptyChallengeSolution : ChallengeSolution :=
  { solution := List.replicate 16 0
    challenge := { workFactor := 0, nonce := List.replicate 16 0 } }

/-- The decoded body of a POST to `/report` (`report.go`,
`reportRequest`): optional challenge envelope, optional upload key, and
the report data. -/
structure ReportRequest where
  challenge : Option ChallengeSolution
  uploadKey : Option (List Nat)
  reportData : List Nat
  deriving DecidableEq

/-- `reportRequest.Validate`: exactly one of challenge and upload key must
be present; both or neither is a bad-request error. -/
def reportRequestValidate (r : ReportRequest) : Option StatusError :=
  match r.challenge, r.uploadKey with
  | some _, some _ =>
      some (newBadRequestError
        "can only have proof of work challenge solution or upload key, not both")
  | none, none =>
      some (newBadRequestError
        "missing proof of work challenge solution or upload key")
  | _, _ => none

/-- The success body of `/report` (`report.go`, `reportResponse`). -/
structure ReportResponse where
  uploadToken : Nat
  uploadKey : List Nat
  deriving DecidableEq

/-- `functions.ReportHandler`. `vs` is `pow.ValidateSolution` (Argon2id
verification, whose computation lives outside this model), `envAtInit` is
the environment variable value read at program initialization, and
`envNow` is the value the process environment has at request time: the
handler never consults it, because the Go code reads the variable exactly
once, at package initialization. The JSON decode step is outside the
model: the handler takes the decoded request. -/
def reportHandler (c : Context) (envAtInit envNow : String)
    (vs : ChallengeSolution → Option StatusError)
    (now : Int) (freshUploadKey : List Nat) (tokenVal : Nat) (store : Store)
    (method : String) (req : ReportRequest) :
    Except StatusError ReportResponse × Store :=
  if method ≠ "POST" then
    (Except.error (newMethodNotAllowedError method), store)
  else
    match reportRequestValidate req with
    | some e => (Except.error e, store)
    | none =>
        match req.challenge with
        | some cs =>
            let powResult : Option StatusError :=
              if allowEmptySolutionEnabled c envAtInit = true ∧ cs = emptyChallengeSolution then
                none
              else
                vs cs
            match powResult with
            | some e => (Except.error e, store)
            | none =>
                match storePendingReport now freshUploadKey tokenVal store req.reportData with
                | (Except.error e, store1) => (Except.error e, store1)
                | (Except.ok (t, k), store1) =>
                    (Except.ok { uploadToken := t, uploadKey := k }, store1)
        | none => (Except.error notImplementedError, store)

/-- `strings.ToLower` restricted to ASCII case mapping, which is exhaustive
for the header values relevant to the HTTPS check (no non-ASCII character
lowercases to a letter of "https"). -/
def lowerStr (s : String) : String := String.mk (s.toList.map Char.toLower)

/-- Case-insensitive prefix test on character lists (ASCII folding). -/
def prefixCI : List Char → List Char → Bool
  | [], _ => true
  | _ :: _, [] => false
  | p :: ps, c :: cs => (Char.toLower c == Char.toLower p) && prefixCI ps cs

/-- The regexp `(?i)(?:proto=)(https|http)` of `util.go` applied with
`FindStringSubmatch`: scan for the leftmost position at which `proto=`
followed by `https` (tried first) or `http` matches case-insensitively,
and return the lowercased capture. -/
def findProtoAux : List Char → Option String
  | [] => none
  | c :: cs =>
      if prefixCI ("proto=https".toList) (c :: cs) then some "https"
      else if prefixCI ("proto=http".toList) (c :: cs) then some "http"
      else findProtoAux cs

/-- Extraction of the proto parameter from a `Forwarded` header value. -/
def findProto (s : String) : Option String := findProtoAux s.toList

/-- Case-insensitive substring occurrence test. -/
def occursCI (pat : List Char) : List Char → Bool
  | [] => pat.isEmpty
  | c :: cs => prefixCI pat (c :: cs) || occursCI pat cs

/-- An incoming HTTP request, reduced to the parts the transport wrapper
inspects. A header that is absent is the empty string, exactly the value
`http.Header.Get` returns for a missing header. -/
structure Request where
  method : String
  xForwardedProto : String
  forwarded : String
  deriving DecidableEq

/-- `util.checkHTTPS`: determine the scheme from `X-Forwarded-Proto`, or
else from the `Forwarded` (RFC 7239) header's proto parameter, and reject
anything that is not `https` with the 418 teapot error. -/
def checkHTTPS (r : Request) : Option StatusError :=
  let scheme : String :=
    if r.xForwardedProto ≠ "" then
      lowerStr r.xForwardedProto
    else if r.forwarded ≠ "" then
      match findProto r.forwarded with
      | some s => s
      | none => ""
    else ""
  if scheme ≠ "https" then some teapotError else none

/-- What the wrapper produced for a request: an early rejection (the
endpoint handler never ran), or the endpoint handler's own outcome. -/
inductive HandlerOutcome where
  | rejectedEarly : StatusError → HandlerOutcome
  | handled : Option StatusError → HandlerOutcome
  deriving DecidableEq

/-- `util.makeHTTPHandler` (from `handler.go`): add HSTS (outside this
model), reject insecure requests via `checkHTTPS` before constructing the
request context, and only then invoke the endpoint handler. -/
def makeHTTPHandler (handler : Request → Option StatusError) (r : Request) :
    HandlerOutcome :=
  match checkHTTPS r with
  | some e => HandlerOutcome.rejectedEarly e
  | none => HandlerOutcome.handled (handler r)

/-! Helper lemmas about the store and the validation transaction. -/

theorem getDoc_setDoc_same (s : Store) (docId : String) (d : PendingReportDoc) :
    getDoc (setDoc s docId d) docId = some d := by
  induction s with
  | nil => simp [setDoc, getDoc]
  | cons hd tl ih =>
      obtain ⟨k, d0⟩ := hd
      by_cases hk : k = docId
      · simp [setDoc, getDoc, hk]
      · simp [setDoc, getDoc, hk, ih]

theorem validate_success_spec (now : Int) (store : Store) (t : Nat) (r : Store)
    (h : validatePendingReport now store t = (none, r)) :
    ∃ doc, getDoc store (idString t) = some doc ∧
      ¬(tokenKey t ≠ doc.tokenKey ∨ doc.validated = true ∨ now > doc.validityExpiration) ∧
      r = setDoc store (idString t) { doc with reportData := [], validated := true } := by
  unfold validatePendingReport runTransactionModel validateTxnBody at h
  cases hg : getDoc store (idString t) with
  | none =>
      rw [hg] at h
      simp at h
  | some doc =>
      rw [hg] at h
      dsimp only at h
      by_cases hc : tokenKey t ≠ doc.tokenKey ∨ doc.validated = true ∨ now > doc.validityExpiration
      · rw [if_pos hc] at h
        simp at h
      · rw [if_neg hc] at h
        simp only [applyWrites, Prod.mk.injEq] at h
        exact ⟨doc, rfl, hc, h.2.symm⟩

/-! Concrete material for witnesses. -/

/-- A concrete pending report document (token key 0, not yet validated). -/
def docA : PendingReportDoc :=
  { uploadKey := [1, 2], tokenKey := 0, reportData := [7], validated := false,
    validityExpiration := 1000, allocationExpiration := 2000 }

/-- A one-document collection holding `docA` under the id of token 0. -/
def storeA : Store := [("0", docA)]

/-- `docA` after a successful validation. -/
def docB : PendingReportDoc :=
  { uploadKey := [1, 2], tokenKey := 0, reportData := [], validated := true,
    validityExpiration := 1000, allocationExpiration := 2000 }

/-- The collection after validating token 0 against `storeA`. -/
def storeB : Store := [("0", docB)]

/-! Claim theorems. -/

/-- C1: `validate_pending_report` returns one and the same `NotFoundError`
(HTTP status 400, message "not found") in all four failure cases: missing
document, stored token key different from `key(token)`, document already
validated, and clock time after the validity expiration. Because all four
cases yield the identical error value, a caller cannot distinguish them. -/
theorem validatePendingReport_uniform_notFound (now : Int) (store : Store) (t : Nat)
    (h : getDoc store (idString t) = none ∨
      ∃ doc, getDoc store (idString t) = some doc ∧
        (doc.tokenKey ≠ tokenKey t ∨ doc.validated = true ∨ now > doc.validityExpiration)) :
    (validatePendingReport now store t).1 = some notFoundError ∧
      notFoundError.code = 400 ∧ notFoundError.message = "not found" := by
  refine ⟨?_, rfl, rfl⟩
  unfold validatePendingReport runTransactionModel validateTxnBody
  rcases h with hg | ⟨doc, hg, hcond⟩
  · rw [hg]
    rfl
  · rw [hg]
    dsimp only
    have hcond' : tokenKey t ≠ doc.tokenKey ∨ doc.validated = true ∨ now > doc.validityExpiration := by
      rcases hcond with h1 | h2
      · exact Or.inl (Ne.symm h1)
      · exact Or.inr h2
    rw [if_pos hcond']

theorem validatePendingReport_uniform_notFound_witness :
    getDoc ([] : Store) (idString 0) = none ∧
      ((validatePendingReport 0 [] 0).1 = some notFoundError ∧
        notFoundError.code = 400 ∧ notFoundError.message = "not found") :=
  ⟨by decide, validatePendingReport_uniform_notFound 0 [] 0 (Or.inl (by decide))⟩

/-- C2: after one successful `validate_pending_report` on a token, every
subsequent call with the same token returns the `NotFoundError`: the
success writes the document back with `Validated = true`, so the validated
check makes every later attempt fail, whatever the later clock time. The
resulting collection is also unchanged by the failed call, so all further
calls keep failing. -/
theorem validatePendingReport_at_most_once (now : Int) (store : Store) (t : Nat)
    (r : Store) (h : validatePendingReport now store t = (none, r)) (laterNow : Int) :
    validatePendingReport laterNow r t = (some notFoundError, r) := by
  obtain ⟨doc, hg, hcond, hr⟩ := validate_success_spec now store t r h
  have hget : getDoc r (idString t) =
      some { doc with reportData := [], validated := true } := by
    rw [hr]
    exact getDoc_setDoc_same store (idString t) _
  unfold validatePendingReport runTransactionModel validateTxnBody
  rw [hget]
  dsimp only
  rw [if_pos (Or.inr (Or.inl rfl))]

theorem validatePendingReport_at_most_once_witness :
    validatePendingReport 0 storeA 0 = (none, storeB) ∧
      validatePendingReport 5000 storeB 0 = (some notFoundError, storeB) :=
  ⟨by decide, validatePendingReport_at_most_once 0 storeA 0 storeB (by decide) 5000⟩

/-- C4: when `validate_pending_report` succeeds, it writes the document
back with `Validated = true` and `ReportData` cleared to empty, and the
document remains present in the collection under the token's id; the
stored document therefore satisfies validated-implies-empty-report-data. -/
theorem validatePendingReport_clears_data (now : Int) (store : Store) (t : Nat)
    (r : Store) (h : validatePendingReport now store t = (none, r)) :
    ∃ doc, getDoc r (idString t) = some doc ∧
      doc.validated = true ∧ doc.reportData = [] := by
  obtain ⟨doc, hg, hcond, hr⟩ := validate_success_spec now store t r h
  refine ⟨{ doc with reportData := [], validated := true }, ?_, rfl, rfl⟩
  rw [hr]
  exact getDoc_setDoc_same store (idString t) _

theorem validatePendingReport_clears_data_witness :
    validatePendingReport 0 storeA 0 = (none, storeB) ∧
      (∃ doc, getDoc storeB (idString 0) = some doc ∧
        doc.validated = true ∧ doc.reportData = []) :=
  ⟨by decide, validatePendingReport_clears_data 0 storeA 0 storeB (by decide)⟩

/-- C9: a successful `validate_pending_report` modifies only the
`Validated` and `ReportData` fields: the document read back after
validation has the same `UploadKey`, `TokenKey`, `ValidityExpiration` and
`AllocationExpiration` as the document read before validation. -/
theorem validatePendingReport_frame (now : Int) (store : Store) (t : Nat)
    (r : Store) (h : validatePendingReport now store t = (none, r)) :
    ∃ doc doc1, getDoc store (idString t) = some doc ∧
      getDoc r (idString t) = some doc1 ∧
      doc1.uploadKey = doc.uploadKey ∧ doc1.tokenKey = doc.tokenKey ∧
      doc1.validityExpiration = doc.validityExpiration ∧
      doc1.allocationExpiration = doc.allocationExpiration ∧
      doc1.validated = true ∧ doc1.reportData = [] := by
  obtain ⟨doc, hg, hcond, hr⟩ := validate_success_spec now store t r h
  refine ⟨doc, { doc with reportData := [], validated := true }, hg, ?_,
    rfl, rfl, rfl, rfl, rfl, rfl⟩
  rw [hr]
  exact getDoc_setDoc_same store (idString t) _

theorem validatePendingReport_frame_witness :
    validatePendingReport 0 storeA 0 = (none, storeB) ∧
      (∃ doc doc1, getDoc storeA (idString 0) = some doc ∧
        getDoc storeB (idString 0) = some doc1 ∧
        doc1.uploadKey = doc.uploadKey ∧ doc1.tokenKey = doc.tokenKey ∧
        doc1.validityExpiration = doc.validityExpiration ∧
        doc1.allocationExpiration = doc.allocationExpiration ∧
        doc1.validated = true ∧ doc1.reportData = []) :=
  ⟨by decide, validatePendingReport_frame 0 storeA 0 storeB (by decide)⟩

/-- C10: whenever `validate_pending_report` returns an error (missing
document, key mismatch, already validated, or expired), its transaction
commits no write: the resulting `pending_reports` collection is exactly
the collection before the call. -/
theorem validatePendingReport_failure_no_write (now : Int) (store : Store) (t : Nat)
    (e : StatusError) (r : Store)
    (h : validatePendingReport now store t = (some e, r)) :
    r = store := by
  unfold validatePendingReport runTransactionModel at h
  cases hb : validateTxnBody now store t with
  | mk res writes =>
      rw [hb] at h
      cases res with
      | none => simp at h
      | some e0 =>
          dsimp only at h
          exact (Prod.mk.injEq _ _ _ _ ▸ h).2.symm

theorem validatePendingReport_failure_no_write_witness :
    validatePendingReport 0 ([] : Store) 0 = (some notFoundError, []) ∧
      ([] : Store) = ([] : Store) :=
  ⟨by decide, validatePendingReport_failure_no_write 0 [] 0 notFoundError [] (by decide)⟩

/-- C3: every document created by `store_pending_report` at clock time
`now` has `ValidityExpiration = now + validityPeriod` (3 days) and
`AllocationExpiration = ValidityExpiration + allocationPeriod` (4 days);
consequently `AllocationExpiration` is strictly greater than
`ValidityExpiration`. -/
theorem storePendingReport_expirations (now : Int) (freshUploadKey : List Nat)
    (tokenVal : Nat) (store : Store) (reportData : List Nat)
    (t : Nat) (k : List Nat) (store1 : Store)
    (h : storePendingReport now freshUploadKey tokenVal store reportData =
      (Except.ok (t, k), store1)) :
    ∃ doc, getDoc store1 (idString tokenVal) = some doc ∧
      doc.validityExpiration = now + validityPeriod ∧
      doc.allocationExpiration = doc.validityExpiration + allocationPeriod ∧
      doc.validityExpiration < doc.allocationExpiration := by
  unfold storePendingReport at h
  cases hg : getDoc store (idString tokenVal) with
  | some d =>
      rw [hg] at h
      simp at h
  | none =>
      rw [hg] at h
      dsimp only at h
      have hs : store1 = setDoc store (idString tokenVal)
          { uploadKey := freshUploadKey
            tokenKey := tokenKey tokenVal
            reportData := reportData
            validated := false
            validityExpiration := now + validityPeriod
            allocationExpiration := now + validityPeriod + allocationPeriod } :=
        ((Prod.mk.injEq _ _ _ _ ▸ h).2).symm
      refine ⟨_, by rw [hs]; exact getDoc_setDoc_same store (idString tokenVal) _, rfl, rfl, ?_⟩
      show now + validityPeriod < now + validityPeriod + allocationPeriod
      have hpos : (0 : Int) < allocationPeriod := by
        norm_num [allocationPeriod, timeHour]
      omega

theorem storePendingReport_expirations_witness :
    storePendingReport 0 [9] 0 ([] : Store) [1] =
        (Except.ok (0, [9]),
          [(idString 0,
            { uploadKey := [9], tokenKey := 0, reportData := [1], validated := false,
              validityExpiration := 0 + validityPeriod,
              allocationExpiration := 0 + validityPeriod + allocationPeriod })]) ∧
      (∃ doc,
        getDoc [(idString 0,
            { uploadKey := [9], tokenKey := 0, reportData := [1], validated := false,
              validityExpiration := 0 + validityPeriod,
              allocationExpiration := 0 + validityPeriod + allocationPeriod })]
          (idString 0) = some doc ∧
        doc.validityExpiration = 0 + validityPeriod ∧
        doc.allocationExpiration = doc.validityExpiration + allocationPeriod ∧
        doc.validityExpiration < doc.allocationExpiration) :=
  ⟨by rfl, storePendingReport_expirations 0 [9] 0 [] [1] 0 [9] _ (by rfl)⟩

/-- C5: if the create-if-absent attempt of `store_pending_report` fails
because a document already exists under the candidate token's id string,
the function returns the internal-server error (HTTP 500) and creates
nothing (the collection is returned unchanged; no further candidate is
tried). On success it returns the generated token together with the same
upload key that is stored in the created document. -/
theorem storePendingReport_collision_internal (now : Int) (freshUploadKey : List Nat)
    (tokenVal : Nat) (store : Store) (reportData : List Nat) :
    ((∃ d, getDoc store (idString tokenVal) = some d) →
      storePendingReport now freshUploadKey tokenVal store reportData =
          (Except.error internalServerError, store) ∧
        internalServerError.code = 500) ∧
    (getDoc store (idString tokenVal) = none →
      ∃ store1 doc,
        storePendingReport now freshUploadKey tokenVal store reportData =
            (Except.ok (tokenVal, freshUploadKey), store1) ∧
          getDoc store1 (idString tokenVal) = some doc ∧
          doc.uploadKey = freshUploadKey) := by
  constructor
  · rintro ⟨d, hg⟩
    refine ⟨?_, rfl⟩
    unfold storePendingReport
    rw [hg]
  · intro hg
    refine ⟨setDoc store (idString tokenVal)
        { uploadKey := freshUploadKey, tokenKey := tokenKey tokenVal,
          reportData := reportData, validated := false,
          validityExpiration := now + validityPeriod,
          allocationExpiration := now + validityPeriod + allocationPeriod },
      { uploadKey := freshUploadKey, tokenKey := tokenKey tokenVal,
        reportData := reportData, validated := false,
        validityExpiration := now + validityPeriod,
        allocationExpiration := now + validityPeriod + allocationPeriod },
      ?_, getDoc_setDoc_same store (idString tokenVal) _, rfl⟩
    unfold storePendingReport
    rw [hg]

theorem storePendingReport_collision_internal_witness :
    ((∃ d, getDoc storeA (idString 0) = some d) ∧
      (storePendingReport 0 [9] 0 storeA [1] = (Except.error internalServerError, storeA) ∧
        internalServerError.code = 500)) ∧
    (getDoc ([] : Store) (idString 0) = none ∧
      ∃ store1 doc,
        storePendingReport 0 [9] 0 ([] : Store) [1] =
            (Except.ok (0, [9]), store1) ∧
          getDoc store1 (idString 0) = some doc ∧
          doc.uploadKey = [9]) :=
  ⟨⟨⟨docA, by decide⟩,
      (storePendingReport_collision_internal 0 [9] 0 storeA [1]).1 ⟨docA, by decide⟩⟩,
    ⟨by decide,
      (storePendingReport_collision_internal 0 [9] 0 [] [1]).2 (by decide)⟩⟩

/-- C6: the `/report` handler accepts a body for processing only if
exactly one of the challenge and upload-key fields is present: a body with
both fields and a body with neither are each rejected with a bad-request
(400) error from `reportRequest.Validate`, and a body with only an upload
key reaches the unimplemented branch and is answered with the 501
not-implemented error. -/
theorem reportHandler_exactly_one_credential (c : Context) (envAtInit envNow : String)
    (vs : ChallengeSolution → Option StatusError) (now : Int)
    (freshUploadKey : List Nat) (tokenVal : Nat) (store : Store) (req : ReportRequest) :
    (req.challenge ≠ none → req.uploadKey ≠ none →
      reportHandler c envAtInit envNow vs now freshUploadKey tokenVal store "POST" req =
          (Except.error (newBadRequestError
            "can only have proof of work challenge solution or upload key, not both"), store) ∧
        (newBadRequestError
          "can only have proof of work challenge solution or upload key, not both").code = 400) ∧
    (req.challenge = none → req.uploadKey = none →
      reportHandler c envAtInit envNow vs now freshUploadKey tokenVal store "POST" req =
          (Except.error (newBadRequestError
            "missing proof of work challenge solution or upload key"), store) ∧
        (newBadRequestError
          "missing proof of work challenge solution or upload key").code = 400) ∧
    (req.challenge = none → req.uploadKey ≠ none →
      reportHandler c envAtInit envNow vs now freshUploadKey tokenVal store "POST" req =
          (Except.error notImplementedError, store) ∧
        notImplementedError.code = 501) := by
  rcases req with ⟨ch, uk, data⟩
  refine ⟨?_, ?_, ?_⟩
  · intro h1 h2
    cases ch with
    | none => exact absurd rfl h1
    | some a =>
        cases uk with
        | none => exact absurd rfl h2
        | some b => exact ⟨rfl, rfl⟩
  · intro h1 h2
    dsimp only at h1 h2
    subst h1
    subst h2
    exact ⟨rfl, rfl⟩
  · intro h1 h2
    dsimp only at h1
    subst h1
    cases uk with
    | none => exact absurd rfl h2
    | some b => exact ⟨rfl, rfl⟩

/-- A concrete request carrying both credentials. -/
def reqBoth : ReportRequest :=
  { challenge := some emptyChallengeSolution, uploadKey := some [3], reportData := [1] }

/-- A concrete request carrying neither credential. -/
def reqNeither : ReportRequest :=
  { challenge := none, uploadKey := none, reportData := [1] }

/-- A concrete request carrying only an upload key. -/
def reqKeyOnly : ReportRequest :=
  { challenge := none, uploadKey := some [3], reportData := [1] }

/-- A validator that accepts every solution. -/
def vsAccept : ChallengeSolution → Option StatusError := fun _ => none

/-- A validator that rejects every solution. -/
def vsReject : ChallengeSolution → Option StatusError :=
  fun _ => some (newBadRequestError "invalid solution")

theorem reportHandler_exactly_one_credential_witness :
    (reportHandler newContext "" "" vsAccept 0 [9] 0 [] "POST" reqBoth =
        (Except.error (newBadRequestError
          "can only have proof of work challenge solution or upload key, not both"), []) ∧
      (newBadRequestError
        "can only have proof of work challenge solution or upload key, not both").code = 400) ∧
    (reportHandler newContext "" "" vsAccept 0 [9] 0 [] "POST" reqNeither =
        (Except.error (newBadRequestError
          "missing proof of work challenge solution or upload key"), []) ∧
      (newBadRequestError
        "missing proof of work challenge solution or upload key").code = 400) ∧
    (reportHandler newContext "" "" vsAccept 0 [9] 0 [] "POST" reqKeyOnly =
        (Except.error notImplementedError, []) ∧
      notImplementedError.code = 501) :=
  ⟨(reportHandler_exactly_one_credential newContext "" "" vsAccept 0 [9] 0 [] reqBoth).1
      (by simp [reqBoth]) (by simp [reqBoth]),
    (reportHandler_exactly_one_credential newContext "" "" vsAccept 0 [9] 0 [] reqNeither).2.1
      rfl rfl,
    (reportHandler_exactly_one_credential newContext "" "" vsAccept 0 [9] 0 [] reqKeyOnly).2.2
      rfl (by simp [reqKeyOnly])⟩

/-- C7: the `/report` handler skips proof-of-work verification for an
all-zero challenge+solution envelope exactly when the
`ALLOW_EMPTY_CHALLENGE_SOLUTION` environment variable was set at program
initialization and the request context was constructed in dev mode
(`NewDevContext`). The handler never consults the request-time process
environment (first conjunct), in dev mode with the variable set at
initialization the outcome is independent of the solution validator
(second conjunct: verification is skipped), outside that combination the
all-zero envelope is passed to full solution validation and its error is
returned (third conjunct), and only `NewDevContext` sets the dev flag
(fourth conjunct). -/
theorem reportHandler_empty_solution_skip :
    (∀ (c : Context) (envAtInit envNow envNow2 : String)
        (vs : ChallengeSolution → Option StatusError) (now : Int)
        (freshUploadKey : List Nat) (tokenVal : Nat) (store : Store)
        (method : String) (req : ReportRequest),
        reportHandler c envAtInit envNow vs now freshUploadKey tokenVal store method req =
          reportHandler c envAtInit envNow2 vs now freshUploadKey tokenVal store method req) ∧
    (∀ (envAtInit envNow : String) (vs vs2 : ChallengeSolution → Option StatusError)
        (now : Int) (freshUploadKey : List Nat) (tokenVal : Nat) (store : Store)
        (req : ReportRequest),
        req.challenge = some emptyChallengeSolution →
        envAtInit ≠ "" →
        reportHandler newDevContext envAtInit envNow vs now freshUploadKey tokenVal store "POST" req =
          reportHandler newDevContext envAtInit envNow vs2 now freshUploadKey tokenVal store "POST" req) ∧
    (∀ (c : Context) (envAtInit envNow : String)
        (vs : ChallengeSolution → Option StatusError) (now : Int)
        (freshUploadKey : List Nat) (tokenVal : Nat) (store : Store)
        (req : ReportRequest) (e : StatusError),
        c.allowEmptyChallengeSolution = false ∨ envAtInit = "" →
        req.challenge = some emptyChallengeSolution →
        req.uploadKey = none →
        vs emptyChallengeSolution = some e →
        reportHandler c envAtInit envNow vs now freshUploadKey tokenVal store "POST" req =
          (Except.error e, store)) ∧
    (newContext.allowEmptyChallengeSolution = false ∧
      newTestContext.allowEmptyChallengeSolution = false ∧
      newDevContext.allowEmptyChallengeSolution = true) := by
  refine ⟨?_, ?_, ?_, rfl, rfl, rfl⟩
  · intro c envAtInit envNow envNow2 vs now freshUploadKey tokenVal store method req
    rfl
  · intro envAtInit envNow vs vs2 now freshUploadKey tokenVal store req h1 h2
    rcases req with ⟨ch, uk, data⟩
    dsimp only at h1
    subst h1
    cases uk with
    | some b => rfl
    | none =>
        have henv : allowEmptySolutionEnabled newDevContext envAtInit = true := by
          simp [allowEmptySolutionEnabled, newDevContext,
            allowEmptyChallengeSolutionEnvVarSet, bne_iff_ne, h2]
        simp [reportHandler, reportRequestValidate, henv]
  · intro c envAtInit envNow vs now freshUploadKey tokenVal store req e hc h1 h2 hvs
    rcases req with ⟨ch, uk, data⟩
    dsimp only at h1 h2
    subst h1
    subst h2
    have hfalse : allowEmptySolutionEnabled c envAtInit = false := by
      rcases hc with hf | he
      · simp [allowEmptySolutionEnabled, hf]
      · simp [allowEmptySolutionEnabled, he, allowEmptyChallengeSolutionEnvVarSet]
    simp [reportHandler, reportRequestValidate, hfalse, hvs]

/-- A concrete request carrying the all-zero challenge+solution envelope. -/
def reqEmptyCS : ReportRequest :=
  { challenge := some emptyChallengeSolution, uploadKey := none, reportData := [] }

theorem reportHandler_empty_solution_skip_witness :
    (reportHandler newDevContext "1" "a" vsAccept 0 [9] 0 [] "POST" reqEmptyCS =
        reportHandler newDevContext "1" "b" vsAccept 0 [9] 0 [] "POST" reqEmptyCS) ∧
    (reportHandler newDevContext "1" "" vsAccept 0 [9] 0 [] "POST" reqEmptyCS =
        reportHandler newDevContext "1" "" vsReject 0 [9] 0 [] "POST" reqEmptyCS) ∧
    (reportHandler newContext "1" "" vsReject 0 [9] 0 [] "POST" reqEmptyCS =
        (Except.error (newBadRequestError "invalid solution"), [])) :=
  ⟨reportHandler_empty_solution_skip.1 newDevContext "1" "a" "b" vsAccept 0 [9] 0 []
      "POST" reqEmptyCS,
    reportHandler_empty_solution_skip.2.1 "1" "" vsAccept vsReject 0 [9] 0 [] reqEmptyCS
      rfl (by decide),
    reportHandler_empty_solution_skip.2.2.1 newContext "1" "" vsReject 0 [9] 0 [] reqEmptyCS
      (newBadRequestError "invalid solution") (Or.inl rfl) rfl rfl rfl⟩

/-- If the `Forwarded` header value contains no case-insensitive occurrence
of the substring "proto=https", the regexp extraction cannot produce the
scheme "https". -/
theorem findProtoAux_ne_https (l : List Char)
    (h : occursCI ("proto=https".toList) l = false) :
    findProtoAux l ≠ some "https" := by
  induction l with
  | nil => simp [findProtoAux]
  | cons c cs ih =>
      simp only [occursCI, Bool.or_eq_false_iff] at h
      obtain ⟨h1, h2⟩ := h
      unfold findProtoAux
      rw [h1]
      simp only [Bool.false_eq_true, if_false]
      cases hq : prefixCI ("proto=http".toList) (c :: cs) with
      | true => simp [hq]
      | false => simp [hq, ih h2]

/-- C8: a request on which neither the `X-Forwarded-Proto` header nor the
proto parameter of the `Forwarded` (RFC 7239) header indicates the scheme
`https` case-insensitively is rejected by the transport wrapper with the
418 teapot error, before the endpoint handler runs: the outcome is an
early rejection, the same for every endpoint handler. -/
theorem makeHTTPHandler_rejects_non_https (handler : Request → Option StatusError)
    (r : Request)
    (h1 : lowerStr r.xForwardedProto ≠ "https")
    (h2 : occursCI ("proto=https".toList) r.forwarded.toList = false) :
    makeHTTPHandler handler r = HandlerOutcome.rejectedEarly teapotError ∧
      teapotError.code = 418 := by
  refine ⟨?_, rfl⟩
  have hc : checkHTTPS r = some teapotError := by
    unfold checkHTTPS
    by_cases hx : r.xForwardedProto ≠ ""
    · simp only [if_pos hx]
      exact if_pos h1
    · simp only [if_neg hx]
      by_cases hf : r.forwarded ≠ ""
      · simp only [if_pos hf]
        cases hp : findProto r.forwarded with
        | none =>
            simp only [hp]
            exact if_pos (by decide)
        | some s =>
            have hs : s ≠ "https" := by
              intro he
              exact findProtoAux_ne_https r.forwarded.toList h2 (he ▸ hp)
            simp only [hp]
            exact if_pos hs
      · simp only [if_neg hf]
        exact if_pos (by decide)
  unfold makeHTTPHandler
  rw [hc]

theorem makeHTTPHandler_rejects_non_https_witness :
    (lowerStr ("" : String) ≠ "https" ∧
      occursCI ("proto=https".toList) ("".toList) = false) ∧
    (makeHTTPHandler (fun _ => none)
        { method := "GET", xForwardedProto := "", forwarded := "" } =
        HandlerOutcome.rejectedEarly teapotError ∧
      teapotError.code = 418) :=
  ⟨⟨by decide, by decide⟩,
    makeHTTPHandler_rejects_non_https (fun _ => none)
      { method := "GET", xForwardedProto := "", forwarded := "" }
      (by decide) (by decide)⟩
